import Mathlib

/-!
Shallow embedding of `src/server.js` (KevFavSongManager): a small Express
application letting an authenticated user browse a song catalog and mark
songs as favorites, backed by a SQLite `favorites (user_id, song_id)` table.

Modelling choices:
* The favorites table is a list of `(user_id, song_id)` string pairs; the
  SQLite primary key on the pair makes a row appear at most once, which the
  `INSERT OR IGNORE` model preserves.
* `express-session` state is an `Option User` (the `req.session.user` field).
* Request bodies are JSON, so the untyped `favorite` field is a `JsVal` with
  JavaScript truthiness; `songId` is compared to catalog ids with `===`, and
  all catalog ids are strings, so it is modelled as a `String`.
* Each handler also returns the list of database operations it performed,
  so that "no store query / no side effect" claims are statable.
-/

/-- A song record as built by `loadSongsFromTSV` in `server.js`. -/
structure Song where
  id : String
  name : String
  artist : String
  albumArtist : String
  album : String
  year : String
  genre : String
  vocal : String
  url : String
deriving DecidableEq, Repr

/-- A user record as stored in the `users` table / the session. -/
structure User where
  id : String
  login : String
  display_name : String
deriving DecidableEq, Repr

/-- The `favorites` table: rows of `(user_id, song_id)`. -/
abbrev FavStore : Type := List (String × String)

/-- An untyped JSON value, as found in the `favorite` body field. -/
inductive JsVal where
  | str : String → JsVal
  | num : Int → JsVal
  | bool : Bool → JsVal
  | null : JsVal
  | undefined : JsVal
deriving DecidableEq, Repr

/-- JavaScript truthiness of a `JsVal`, as used by `if (favorite)`. -/
def JsVal.truthy : JsVal → Bool
  | .str s => !s.isEmpty
  | .num n => decide (n ≠ 0)
  | .bool b => b
  | .null => false
  | .undefined => false

/-- HTTP responses produced by the routes of `server.js` that we model. -/
inductive HttpResponse where
  | redirect : String → HttpResponse
  | unauthorizedJson : HttpResponse
  | invalidSongIdJson : HttpResponse
  | favoriteSuccess : String → JsVal → HttpResponse
  | songsJson : List (Song × Bool) → HttpResponse
  | authFailedText : HttpResponse
deriving DecidableEq, Repr

/-- Database operations a handler can perform, recorded as a trace. -/
inductive DbOp where
  | selectFavorites : String → DbOp
  | insertFavorite : String → String → DbOp
  | deleteFavorite : String → String → DbOp
deriving DecidableEq, Repr

/-- Result of the `requireAuth` middleware: either it halts the request
with a response, or it lets the handler proceed with the session user. -/
inductive GateResult where
  | halt : HttpResponse → GateResult
  | proceed : User → GateResult
deriving DecidableEq, Repr

/-- `requireAuth` from `server.js`: if `req.session.user` is absent, respond
`401 {error: "Unauthorized"}`; otherwise continue with that user. -/
def requireAuth (sess : Option User) : GateResult :=
  match sess with
  | none => .halt .unauthorizedJson
  | some u => .proceed u

/-- `INSERT OR IGNORE INTO favorites (user_id, song_id) VALUES (?, ?)`:
append the row unless it is already present (primary-key conflict ignored). -/
def insertFav (store : FavStore) (uid sid : String) : FavStore :=
  if (uid, sid) ∈ store then store else store ++ [(uid, sid)]

/-- `DELETE FROM favorites WHERE user_id = ? AND song_id = ?`. -/
def deleteFav (store : FavStore) (uid sid : String) : FavStore :=
  List.filter (fun p => !(p.1 = uid ∧ p.2 = sid : Bool)) store

/-- `SELECT song_id FROM favorites WHERE user_id = ?`, projected to ids. -/
def favoriteIdsOf (store : FavStore) (uid : String) : List String :=
  List.map Prod.snd (List.filter (fun p => p.1 = uid) store)

/-- Membership of `(uid, sid)` in the favorites store: the spec's
`isFavorite(U, S)`. -/
def isFavorite (store : FavStore) (uid sid : String) : Bool :=
  decide ((uid, sid) ∈ store)

/-- The `GET /songs` handler: behind `requireAuth`, read this user's
favorite ids and return the catalog in order, each song paired with its
`isFavorite` flag. Also returns the trace of database operations. -/
def getSongs (sess : Option User) (catalog : List Song) (store : FavStore) :
    HttpResponse × List DbOp :=
  match requireAuth sess with
  | .halt r => (r, [])
  | .proceed u =>
    let favoriteIds := favoriteIdsOf store u.id
    (.songsJson (catalog.map fun s => (s, favoriteIds.contains s.id)),
     [.selectFavorites u.id])

/-- The `POST /favorite` handler: behind `requireAuth`, validate the song id
against the catalog (`400 Invalid song ID` otherwise), then insert or delete
the `(user_id, song_id)` row according to the truthiness of `favorite`, and
echo `{success: true, songId, favorite}`. Returns the new store, the
response, and the trace of database operations. -/
def postFavorite (sess : Option User) (catalog : List Song) (store : FavStore)
    (songId : String) (favorite : JsVal) :
    FavStore × HttpResponse × List DbOp :=
  match requireAuth sess with
  | .halt r => (store, r, [])
  | .proceed u =>
    match catalog.find? (fun s => s.id = songId) with
    | none => (store, .invalidSongIdJson, [])
    | some _ =>
      if favorite.truthy then
        (insertFav store u.id songId, .favoriteSuccess songId favorite,
         [.insertFavorite u.id songId])
      else
        (deleteFav store u.id songId, .favoriteSuccess songId favorite,
         [.deleteFavorite u.id songId])

/-- `INSERT OR IGNORE INTO users (id, login, display_name)`: insert unless a
user with this primary-key id already exists. -/
def insertOrIgnoreUser (users : List User) (u : User) : List User :=
  if users.any (fun v => v.id = u.id) then users else users ++ [u]

/-- Outcome of a run of the `GET /auth/twitch/callback` handler: the session
user after the request, the `users` table after the request, and the
response sent. -/
structure CallbackOutcome where
  sessionUser : Option User
  usersTable : List User
  response : HttpResponse
deriving DecidableEq, Repr

/-- The `GET /auth/twitch/callback` handler. External effects are passed as
functions/flags: `tokenExchange` models the POST to the token endpoint
(`none` = the await throws), `profileFetch` models the Helix profile GET for
the obtained access token (`none` = it throws), and `upsertOk` models
whether the `INSERT OR IGNORE INTO users` statement succeeds. The handler
assigns `req.session.user = user` before running the upsert, and any thrown
error lands in the catch block which sends "Authentication failed.". -/
def twitchCallback (code : Option String)
    (tokenExchange : String → Option String)
    (profileFetch : String → Option User)
    (upsertOk : Bool)
    (sess : Option User) (users : List User) : CallbackOutcome :=
  match code with
  | none => ⟨sess, users, .redirect "/login"⟩
  | some c =>
    match tokenExchange c with
    | none => ⟨sess, users, .authFailedText⟩
    | some accessToken =>
      match profileFetch accessToken with
      | none => ⟨sess, users, .authFailedText⟩
      | some user =>
        if upsertOk then
          ⟨some user, insertOrIgnoreUser users user, .redirect "/"⟩
        else
          ⟨some user, users, .authFailedText⟩

/-- The auth-gate failure response described by the spec ("Modelled from the
spec", for comparison with `requireAuth`): browser-style requests get a
redirect to the login page, API-style requests get the Unauthorized error. -/
def specAuthGateFailure (browserStyle : Bool) : HttpResponse :=
  if browserStyle then .redirect "/login" else .unauthorizedJson

/-- Well-formedness of the favorites store relative to the catalog: every
row's `song_id` is the id of some catalog song. -/
def storeWF (catalog : List Song) (store : FavStore) : Prop :=
  ∀ p ∈ store, ∃ s ∈ catalog, s.id = p.2

/-- The catalog song of the spec's end-to-end scenario, used as a concrete
witness input. -/
def song42 : Song :=
  ⟨"42", "Test Song", "", "", "", "", "", "", ""⟩

/-- A concrete user, used as a witness input. -/
def user1 : User := ⟨"u1", "u1", "User One"⟩

/-- A second concrete user with a distinct id, used as a witness input. -/
def user2 : User := ⟨"u2", "u2", "User Two"⟩

/-! ### Lemmas about the store operations -/

theorem mem_insertFav_self (store : FavStore) (uid sid : String) :
    (uid, sid) ∈ insertFav store uid sid := by
  unfold insertFav
  split
  · assumption
  · simp

theorem insertFav_of_mem (store : FavStore) (uid sid : String)
    (h : (uid, sid) ∈ store) : insertFav store uid sid = store := by
  unfold insertFav
  rw [if_pos h]

theorem insertFav_idem (store : FavStore) (uid sid : String) :
    insertFav (insertFav store uid sid) uid sid = insertFav store uid sid :=
  insertFav_of_mem _ _ _ (mem_insertFav_self store uid sid)

theorem isFavorite_insertFav_self (store : FavStore) (uid sid : String) :
    isFavorite (insertFav store uid sid) uid sid = true := by
  simpa [isFavorite] using mem_insertFav_self store uid sid

theorem not_mem_deleteFav_self (store : FavStore) (uid sid : String) :
    (uid, sid) ∉ deleteFav store uid sid := by
  unfold deleteFav
  intro hmem
  have h := (List.mem_filter.mp hmem).2
  simp at h

theorem isFavorite_deleteFav_self (store : FavStore) (uid sid : String) :
    isFavorite (deleteFav store uid sid) uid sid = false := by
  simpa [isFavorite] using not_mem_deleteFav_self store uid sid

theorem deleteFav_of_not_mem (store : FavStore) (uid sid : String)
    (h : (uid, sid) ∉ store) : deleteFav store uid sid = store := by
  unfold deleteFav
  rw [List.filter_eq_self]
  intro a ha
  simp only [Bool.not_eq_true', decide_eq_false_iff_not]
  rintro ⟨h1, h2⟩
  obtain ⟨x, y⟩ := a
  simp only at h1 h2
  subst h1
  subst h2
  exact h ha

theorem mem_favoriteIdsOf (store : FavStore) (uid sid : String) :
    sid ∈ favoriteIdsOf store uid ↔ (uid, sid) ∈ store := by
  simp only [favoriteIdsOf, List.mem_map, List.mem_filter, decide_eq_true_eq]
  constructor
  · rintro ⟨⟨a, b⟩, ⟨hmem, huid⟩, hsnd⟩
    simp only at huid hsnd
    subst huid
    subst hsnd
    exact hmem
  · intro hmem
    exact ⟨(uid, sid), ⟨hmem, rfl⟩, rfl⟩

theorem contains_favoriteIdsOf (store : FavStore) (uid sid : String) :
    (favoriteIdsOf store uid).contains sid = isFavorite store uid sid := by
  rw [Bool.eq_iff_iff]
  simp [isFavorite, mem_favoriteIdsOf]

theorem favoriteIdsOf_insertFav_other (store : FavStore) (uid sid uid2 : String)
    (h : uid ≠ uid2) :
    favoriteIdsOf (insertFav store uid sid) uid2 = favoriteIdsOf store uid2 := by
  unfold insertFav
  split
  · rfl
  · simp [favoriteIdsOf, List.filter_append, h]

theorem favoriteIdsOf_deleteFav_other (store : FavStore) (uid sid uid2 : String)
    (h : uid ≠ uid2) :
    favoriteIdsOf (deleteFav store uid sid) uid2 = favoriteIdsOf store uid2 := by
  unfold favoriteIdsOf deleteFav
  rw [List.filter_filter]
  congr 1
  apply List.filter_congr
  intro ⟨a, b⟩ _
  by_cases ha : a = uid2
  · subst ha
    simp
    exact Or.inl (fun hc : a = uid => h hc.symm)
  · simp [ha]

/-! ### Claim theorems -/

/-- C1: for every authenticated user `u` and song id present in the catalog,
after `POST /favorite` with body `{songId, favorite: b}` (boolean `b`)
returns successfully, `(u.id, songId)` is in the Favorites Store iff `b` is
true: membership exactly matches the requested boolean state. -/
theorem favorite_sets_membership (u : User) (catalog : List Song)
    (store : FavStore) (songId : String) (b : Bool)
    (h : (catalog.find? (fun s => s.id = songId)).isSome = true) :
    (postFavorite (some u) catalog store songId (.bool b)).2.1
        = .favoriteSuccess songId (.bool b) ∧
    isFavorite (postFavorite (some u) catalog store songId (.bool b)).1
        u.id songId = b := by
  obtain ⟨s, hs⟩ := Option.isSome_iff_exists.mp h
  cases b <;>
    simp [postFavorite, requireAuth, hs, JsVal.truthy,
      isFavorite_insertFav_self, isFavorite_deleteFav_self]

/-- Witness for C1 at the concrete scenario input: catalog `[song42]`,
empty store, `favorite: true`. -/
theorem favorite_sets_membership_witness :
    (([song42].find? (fun s => s.id = "42")).isSome = true) ∧
    ((postFavorite (some user1) [song42] [] "42" (.bool true)).2.1
        = .favoriteSuccess "42" (.bool true) ∧
     isFavorite (postFavorite (some user1) [song42] [] "42" (.bool true)).1
        user1.id "42" = true) :=
  ⟨by decide, favorite_sets_membership user1 [song42] [] "42" true (by decide)⟩

/-- C2: an authenticated `POST /favorite` whose `songId` matches no catalog
song returns the 400 Invalid song ID error, performs no database operation,
and leaves the Favorites Store exactly unchanged. -/
theorem invalid_song_id_no_mutation (u : User) (catalog : List Song)
    (store : FavStore) (songId : String) (favorite : JsVal)
    (h : ∀ s ∈ catalog, s.id ≠ songId) :
    postFavorite (some u) catalog store songId favorite
      = (store, .invalidSongIdJson, []) := by
  have hf : catalog.find? (fun s => s.id = songId) = none := by
    rw [List.find?_eq_none]
    intro s hs
    simpa using h s hs
  simp [postFavorite, requireAuth, hf]

/-- Witness for C2: song id "nope" is not in the catalog `[song42]`; the
store (holding one row) is returned unchanged. -/
theorem invalid_song_id_no_mutation_witness :
    (∀ s ∈ [song42], s.id ≠ "nope") ∧
    postFavorite (some user1) [song42] [("u1", "42")] "nope" (.bool true)
      = ([("u1", "42")], .invalidSongIdJson, []) :=
  ⟨by decide,
   invalid_song_id_no_mutation user1 [song42] [("u1", "42")] "nope"
     (.bool true) (by decide)⟩

/-- C3: for every authenticated user, catalog and store, `GET /songs`
returns exactly the catalog in order, each song paired with an `isFavorite`
flag that is true iff `(u.id, song.id)` is in the Favorites Store; the
right-hand side is an explicit function of the catalog and the store, so
the result is deterministic. -/
theorem songs_list_joined (u : User) (catalog : List Song) (store : FavStore) :
    getSongs (some u) catalog store
      = (.songsJson (catalog.map fun s => (s, isFavorite store u.id s.id)),
         [.selectFavorites u.id]) := by
  simp [getSongs, requireAuth, isFavorite, mem_favoriteIdsOf]

/-- C4: favoriting is idempotent: toggling on twice gives the same store as
once; toggling on an already-present pair returns success with the store
unchanged (a no-op, not an error), and toggling off an absent pair likewise
returns success with the store unchanged. -/
theorem favorite_idempotent (u : User) (catalog : List Song)
    (store : FavStore) (songId : String)
    (h : (catalog.find? (fun s => s.id = songId)).isSome = true) :
    ((postFavorite (some u) catalog
        (postFavorite (some u) catalog store songId (.bool true)).1
        songId (.bool true)).1
      = (postFavorite (some u) catalog store songId (.bool true)).1)
    ∧ (isFavorite store u.id songId = true →
        postFavorite (some u) catalog store songId (.bool true)
          = (store, .favoriteSuccess songId (.bool true),
             [.insertFavorite u.id songId]))
    ∧ (isFavorite store u.id songId = false →
        postFavorite (some u) catalog store songId (.bool false)
          = (store, .favoriteSuccess songId (.bool false),
             [.deleteFavorite u.id songId])) := by
  obtain ⟨s, hs⟩ := Option.isSome_iff_exists.mp h
  refine ⟨?_, ?_, ?_⟩
  · simp [postFavorite, requireAuth, hs, JsVal.truthy, insertFav_idem]
  · intro hmem
    rw [isFavorite, decide_eq_true_eq] at hmem
    simp [postFavorite, requireAuth, hs, JsVal.truthy, insertFav_of_mem _ _ _ hmem]
  · intro hmem
    rw [isFavorite, decide_eq_false_iff_not] at hmem
    simp [postFavorite, requireAuth, hs, JsVal.truthy, deleteFav_of_not_mem _ _ _ hmem]

/-- Witness for C4 at the concrete input: catalog `[song42]`, empty store. -/
theorem favorite_idempotent_witness :
    (([song42].find? (fun s => s.id = "42")).isSome = true) ∧
    (((postFavorite (some user1) [song42]
        (postFavorite (some user1) [song42] [] "42" (.bool true)).1
        "42" (.bool true)).1
      = (postFavorite (some user1) [song42] [] "42" (.bool true)).1)
    ∧ (isFavorite [] user1.id "42" = true →
        postFavorite (some user1) [song42] [] "42" (.bool true)
          = ([], .favoriteSuccess "42" (.bool true),
             [.insertFavorite user1.id "42"]))
    ∧ (isFavorite [] user1.id "42" = false →
        postFavorite (some user1) [song42] [] "42" (.bool false)
          = ([], .favoriteSuccess "42" (.bool false),
             [.deleteFavorite user1.id "42"]))) :=
  ⟨by decide, favorite_idempotent user1 [song42] [] "42" (by decide)⟩

/-- C5 counterexample: the claim says a browser-style request with no valid
session is answered with a redirect to the login page, but `requireAuth`
(the only auth gate in `server.js`) answers every sessionless request —
browser-style included — with the 401 Unauthorized JSON error, never the
redirect the spec describes (`specAuthGateFailure true`). -/
theorem auth_gate_no_redirect_counterexample :
    requireAuth none = .halt .unauthorizedJson ∧
    requireAuth none ≠ GateResult.halt (specAuthGateFailure true) := by
  refine ⟨rfl, ?_⟩
  intro hc
  simp [requireAuth, specAuthGateFailure] at hc

/-- C5 amended: every request to a protected route with no valid session —
whatever its style — receives the 401 Unauthorized JSON error, and the
request has no side effects (the store is unchanged and no database
operation runs). -/
theorem auth_gate_always_unauthorized (catalog : List Song) (store : FavStore)
    (songId : String) (favorite : JsVal) :
    requireAuth none = .halt .unauthorizedJson ∧
    getSongs none catalog store = (.unauthorizedJson, []) ∧
    postFavorite none catalog store songId favorite
      = (store, .unauthorizedJson, []) :=
  ⟨rfl, rfl, rfl⟩

/-- C6 counterexample: a run of the callback in which token exchange and
profile fetch succeed but the user upsert fails. The claim says no session
is created on any failure, but `req.session.user` is assigned before the
upsert runs, so the session carries the user even though the generic
"Authentication failed." response is sent. -/
theorem oauth_upsert_failure_counterexample :
    (twitchCallback (some "code") (fun _ => some "tok") (fun _ => some user1)
        false none []).sessionUser = some user1 ∧
    (twitchCallback (some "code") (fun _ => some "tok") (fun _ => some user1)
        false none []).response = .authFailedText :=
  ⟨rfl, rfl⟩

/-- C6 amended: starting from no session, if the token exchange or the
profile fetch fails, no session user is attached and the generic failure
response is shown; if both succeed but the user upsert fails, the generic
failure response is shown but the session already carries the fetched user
(it is assigned before the upsert). In every failure case the users table
is unchanged. -/
theorem oauth_failure_session_behavior (c : String)
    (tokenExchange : String → Option String)
    (profileFetch : String → Option User)
    (upsertOk : Bool) (users : List User) :
    (tokenExchange c = none →
      twitchCallback (some c) tokenExchange profileFetch upsertOk none users
        = ⟨none, users, .authFailedText⟩) ∧
    (∀ tok, tokenExchange c = some tok → profileFetch tok = none →
      twitchCallback (some c) tokenExchange profileFetch upsertOk none users
        = ⟨none, users, .authFailedText⟩) ∧
    (∀ tok u, tokenExchange c = some tok → profileFetch tok = some u →
      upsertOk = false →
      twitchCallback (some c) tokenExchange profileFetch upsertOk none users
        = ⟨some u, users, .authFailedText⟩) := by
  refine ⟨?_, ?_, ?_⟩
  · intro ht
    simp [twitchCallback, ht]
  · intro tok ht hp
    simp [twitchCallback, ht, hp]
  · intro tok u ht hp hu
    simp [twitchCallback, ht, hp, hu]

/-- Witness for C6 amended: a concrete run whose token exchange fails
leaves the session empty and shows the failure response. -/
theorem oauth_failure_session_behavior_witness :
    ((fun _ : String => (none : Option String)) "code" = none) ∧
    twitchCallback (some "code") (fun _ => none) (fun _ => some user1)
        true none [] = ⟨none, [], .authFailedText⟩ :=
  ⟨rfl,
   (oauth_failure_session_behavior "code" (fun _ => none)
      (fun _ => some user1) true []).1 rfl⟩

/-- C7: `GET /songs` with no valid session returns the 401 Unauthorized JSON
response — which carries no song data — and performs no database operation
(in particular the favorites query for any user is not run). -/
theorem songs_unauthorized_no_query (catalog : List Song) (store : FavStore) :
    getSongs none catalog store = (.unauthorizedJson, []) :=
  rfl

/-- C8: a successful favorite toggle by `u1` on a catalog song does not
change the favorite rows of a different user `u2`, so `u2`'s `GET /songs`
view is unaffected by `u1`'s toggle. -/
theorem favorite_frame_other_user (u1 u2 : User) (catalog : List Song)
    (store : FavStore) (songId : String) (favorite : JsVal)
    (hne : u1.id ≠ u2.id)
    (h : (catalog.find? (fun s => s.id = songId)).isSome = true) :
    favoriteIdsOf (postFavorite (some u1) catalog store songId favorite).1 u2.id
      = favoriteIdsOf store u2.id ∧
    getSongs (some u2) catalog
        (postFavorite (some u1) catalog store songId favorite).1
      = getSongs (some u2) catalog store := by
  obtain ⟨s, hs⟩ := Option.isSome_iff_exists.mp h
  have hfav : favoriteIdsOf
      (postFavorite (some u1) catalog store songId favorite).1 u2.id
      = favoriteIdsOf store u2.id := by
    by_cases ht : favorite.truthy <;>
      simp [postFavorite, requireAuth, hs, ht,
        favoriteIdsOf_insertFav_other _ _ _ _ hne,
        favoriteIdsOf_deleteFav_other _ _ _ _ hne]
  refine ⟨hfav, ?_⟩
  simp only [getSongs, requireAuth, hfav]

/-- Witness for C8: `user1` favoriting song "42" does not change `user2`'s
favorites view. -/
theorem favorite_frame_other_user_witness :
    (user1.id ≠ user2.id) ∧
    (([song42].find? (fun s => s.id = "42")).isSome = true) ∧
    (favoriteIdsOf
        (postFavorite (some user1) [song42] [("u2", "42")] "42"
          (.bool true)).1 user2.id
      = favoriteIdsOf [("u2", "42")] user2.id ∧
     getSongs (some user2) [song42]
        (postFavorite (some user1) [song42] [("u2", "42")] "42"
          (.bool true)).1
      = getSongs (some user2) [song42] [("u2", "42")]) :=
  ⟨by decide, by decide,
   favorite_frame_other_user user1 user2 [song42] [("u2", "42")] "42"
     (.bool true) (by decide) (by decide)⟩

/-- C9: the catalog-reference invariant is preserved by every write through
`POST /favorite` (the only operation that writes the Favorites Store): if
every stored row's song id is in the catalog, the same holds after the
request, because the handler validates the song id against the catalog
before any insert. -/
theorem store_invariant_preserved (sess : Option User) (catalog : List Song)
    (store : FavStore) (songId : String) (favorite : JsVal)
    (h : storeWF catalog store) :
    storeWF catalog (postFavorite sess catalog store songId favorite).1 := by
  cases sess with
  | none => exact h
  | some u =>
    simp only [postFavorite, requireAuth]
    cases hf : catalog.find? (fun s => s.id = songId) with
    | none => exact h
    | some s =>
      have hmem : s ∈ catalog := List.mem_of_find?_eq_some hf
      have hsid : s.id = songId := by
        have := List.find?_some hf
        simpa using this
      by_cases ht : favorite.truthy
      · simp only [ht, if_true]
        intro p hp
        unfold insertFav at hp
        split at hp
        · exact h p hp
        · rcases List.mem_append.mp hp with hin | hnew
          · exact h p hin
          · have : p = (u.id, songId) := by simpa using hnew
            subst this
            exact ⟨s, hmem, hsid⟩
      · simp only [ht, if_false]
        intro p hp
        exact h p (List.mem_of_mem_filter hp)

/-- Witness for C9: a well-formed one-row store stays well-formed after a
favorite insert. -/
theorem store_invariant_preserved_witness :
    storeWF [song42] [("u1", "42")] ∧
    storeWF [song42]
      (postFavorite (some user1) [song42] [("u1", "42")] "42"
        (.bool true)).1 := by
  have h : storeWF [song42] [("u1", "42")] := by
    intro p hp
    simp only [List.mem_singleton] at hp
    subst hp
    exact ⟨song42, List.mem_singleton.mpr rfl, rfl⟩
  exact ⟨h,
    store_invariant_preserved (some user1) [song42] [("u1", "42")] "42"
      (.bool true) h⟩

/-- C10 (implicit): `POST /favorite` does not check that the `favorite`
body field is a boolean. For an authenticated request with a catalog song
id, any truthy JSON value (such as a non-empty string or the number 1)
makes the pair a member of the store and any falsy value (false, 0, null,
or the field absent/undefined) removes it, and the response echoes the
received value back unchanged as `{success: true, songId, favorite}`. -/
theorem favorite_untyped_truthiness (u : User) (catalog : List Song)
    (store : FavStore) (songId : String) (favorite : JsVal)
    (h : (catalog.find? (fun s => s.id = songId)).isSome = true) :
    (postFavorite (some u) catalog store songId favorite).2.1
        = .favoriteSuccess songId favorite ∧
    (favorite.truthy = true →
      (postFavorite (some u) catalog store songId favorite).1
          = insertFav store u.id songId ∧
      isFavorite (postFavorite (some u) catalog store songId favorite).1
          u.id songId = true) ∧
    (favorite.truthy = false →
      (postFavorite (some u) catalog store songId favorite).1
          = deleteFav store u.id songId ∧
      isFavorite (postFavorite (some u) catalog store songId favorite).1
          u.id songId = false) ∧
    JsVal.truthy (.str "x") = true ∧ JsVal.truthy (.num 1) = true ∧
    JsVal.truthy (.bool false) = false ∧ JsVal.truthy (.num 0) = false ∧
    JsVal.truthy .null = false ∧ JsVal.truthy .undefined = false := by
  obtain ⟨s, hs⟩ := Option.isSome_iff_exists.mp h
  refine ⟨?_, ?_, ?_, by decide, by decide, by decide, by decide, by decide,
    by decide⟩
  · by_cases ht : favorite.truthy <;> simp [postFavorite, requireAuth, hs, ht]
  · intro ht
    simp [postFavorite, requireAuth, hs, ht, isFavorite_insertFav_self]
  · intro ht
    simp [postFavorite, requireAuth, hs, ht, isFavorite_deleteFav_self]

/-- Witness for C10 at the concrete input `favorite = "yes"` (a non-empty
string, hence truthy). -/
theorem favorite_untyped_truthiness_witness :
    (([song42].find? (fun s => s.id = "42")).isSome = true) ∧
    ((postFavorite (some user1) [song42] [] "42" (.str "yes")).2.1
        = .favoriteSuccess "42" (.str "yes") ∧
    (JsVal.truthy (.str "yes") = true →
      (postFavorite (some user1) [song42] [] "42" (.str "yes")).1
          = insertFav [] user1.id "42" ∧
      isFavorite (postFavorite (some user1) [song42] [] "42" (.str "yes")).1
          user1.id "42" = true) ∧
    (JsVal.truthy (.str "yes") = false →
      (postFavorite (some user1) [song42] [] "42" (.str "yes")).1
          = deleteFav [] user1.id "42" ∧
      isFavorite (postFavorite (some user1) [song42] [] "42" (.str "yes")).1
          user1.id "42" = false) ∧
    JsVal.truthy (.str "x") = true ∧ JsVal.truthy (.num 1) = true ∧
    JsVal.truthy (.bool false) = false ∧ JsVal.truthy (.num 0) = false ∧
    JsVal.truthy .null = false ∧ JsVal.truthy .undefined = false) :=
  ⟨by decide,
   favorite_untyped_truthiness user1 [song42] [] "42" (.str "yes")
     (by decide)⟩
